import Mathlib

/-!
Verification of the identity-resolution and crypto-block cache layer of
pyticketswitch (`src/pyticketswitch/interface_objects/base.py`, class
`InterfaceObject`), shallowly embedded in Lean.

Modelling conventions:
* Python dictionaries used as key-value stores become association lists
  (`Store`); an assignment conses a fresh binding (lookup-equivalent to a
  dict update), `del` of a key removes every binding of that key.
* Python values held in the stores (usernames, running-user descriptors,
  crypto blocks) are opaque strings.  Python `None` becomes `Option.none`;
  Python truthiness of an optional string is `pyTruthy` (`None` and `""`
  are falsy).  `str(None)` as used by `'{0}'.format` is `pyStr`.
* The remote wire client (`pyticketswitch.interface.CoreAPI`, not under
  `src/`) is an external collaborator; a call to its `start_session` is
  modelled by an explicit `Except Unit RemoteResult` argument: `Except.ok`
  carries the username / running-user / optional crypto block the call
  yields, `Except.error` is a raised remote failure.
* The attached host session is `Session`: a store plus flags recording
  whether it exposes `save` (durable commit) and `flush_crypto_blocks`
  (bulk clear).  `saveCount` / `flushCount` are ghost counters of calls to
  those methods, and `InterfaceObject.remote_calls` is a ghost counter of
  remote `start_session` invocations; none of them feed back into the
  modelled control flow.
* Stateful methods take and return an `InterfaceObject`; methods that can
  raise return `Except Unit α × InterfaceObject` (the state component is
  the object as it stands when the exception propagates).
-/

namespace PTS

/-- Python truthiness of an optional string: `None` and `""` are falsy. -/
def pyTruthy : Option String → Bool
  | none => false
  | some s => s != ""

/-- Python truthiness of an optional int: `None` and `0` are falsy. -/
def pyTruthyNat : Option Nat → Bool
  | none => false
  | some n => n != 0

/-- `str(x)` as applied by `'{0}'.format(x)`: `None` prints as `"None"`. -/
def pyStr : Option String → String
  | none => "None"
  | some s => s

/-- A Python dict used as a key-value store, as an association list. -/
abbrev Store := List (String × String)

/-- Dict lookup: the value of the most recent binding of `k`, if any. -/
def lookupStore (s : Store) (k : String) : Option String :=
  (s.find? (fun e => e.1 == k)).map (fun e => e.2)

/-- Dict assignment `s[k] = v` (lookup-equivalent to an in-place update). -/
def insertStore (s : Store) (k v : String) : Store :=
  (k, v) :: s

/-- The optional external session store attached via `set_session` /
the `session` constructor kwarg.  `hasSave` / `hasFlush` model the
`hasattr` probes for `save` and `flush_crypto_blocks`; the counters are
ghost observers of how often each was invoked. -/
structure Session where
  data : Store
  hasSave : Bool
  hasFlush : Bool
  saveCount : Nat
  flushCount : Nat
deriving DecidableEq, Repr

/-- The dict built by `InterfaceObject._get_settings` (all ten keys are
always present; a missing value is `none`). -/
structure Settings where
  username : Option String
  password : Option String
  remote_ip : Option String
  remote_site : Option String
  accept_language : Option String
  url : Option String
  ext_start_session_url : Option String
  api_request_timeout : Option Nat
  no_time_descr : Option String
  default_concession_descr : Option String
deriving DecidableEq, Repr

/-- A transactional object passed to the `*_for_object` methods; only its
`_get_cache_key()` identity token matters to this layer. -/
structure TxObject where
  cache_key : String
deriving DecidableEq, Repr

/-- The state of one `InterfaceObject`: its settings dict, the local
`_session_store` dict, the optional attached session, and a ghost count
of remote `start_session` calls. -/
structure InterfaceObject where
  settings : Settings
  session_store : Store
  session : Option Session
  remote_calls : Nat
deriving DecidableEq, Repr

/-- What one successful remote `start_session` call yields: the crypto
block it returns (possibly `None`), and the `username` / `running_user`
readable from the core API object afterwards. -/
structure RemoteResult where
  crypto_block : Option String
  username : String
  running_user : String
deriving DecidableEq, Repr

/-- `InterfaceObject.CRYPTO_PREFIX`. -/
def cryptoMark : String := "CRYPTO_BLOCK"

/-- `InterfaceObject.USERNAME_PREFIX`. -/
def usernameMark : String := "USERNAME"

/-- `InterfaceObject.RUNNING_USER_PREFIX`. -/
def runningUserMark : String := "RUNNING_USER"

/-- Python `key.startswith(mark)`. -/
def hasMark (mark k : String) : Bool :=
  mark.data.isPrefixOf k.data

/-- Modelled from the spec: the `pyticketswitch.settings` module
(`default_settings`) is not under `src/`; these constants stand for its
values, on which no claim depends. -/
def API_URL : String := "default_api_url"

/-- Modelled from the spec: default `EXT_START_SESSION_URL` (see
`API_URL`). -/
def EXT_START_SESSION_URL : String := "default_ext_start_session_url"

/-- Modelled from the spec: default `API_REQUEST_TIMEOUT` (see
`API_URL`). -/
def API_REQUEST_TIMEOUT : Nat := 30

/-- Modelled from the spec: default `NO_TIME_DESCR` (see `API_URL`). -/
def NO_TIME_DESCR : String := "default_no_time_descr"

/-- Modelled from the spec: default `DEFAULT_CONCESSION_DESCR` (see
`API_URL`). -/
def DEFAULT_CONCESSION_DESCR : String := "default_concession_descr"

/-- `_get_crypto_session_key`: `'{0}_{1}_{2}'.format(CRYPTO_PREFIX,
username, method_name)`. -/
def cryptoSessionKey (username : Option String) (method_name : String) : String :=
  cryptoMark ++ ("_" ++ (pyStr username ++ ("_" ++ method_name)))

/-- `_get_username_session_key`. -/
def usernameKey (remote_ip remote_site : Option String) : String :=
  usernameMark ++ ("_" ++ (pyStr remote_ip ++ ("_" ++ pyStr remote_site)))

/-- `_get_running_user_session_key`. -/
def runningUserKey (username : Option String) : String :=
  runningUserMark ++ ("_" ++ pyStr username)

/-- `_get_crypto_object_key`: the crypto session key extended with the
object's `_get_cache_key()` token. -/
def cryptoObjectKey (username : Option String) (method_name : String)
    (interface_object : TxObject) : String :=
  cryptoSessionKey username method_name ++ ("_" ++ interface_object.cache_key)

/-- `_store_data(key, data, save_session)`: write to the local store,
mirror into the attached session if any, and call the session's `save`
when `save_session` holds and the session exposes `save`. -/
def storeData (key data : String) (save_session : Bool)
    (o : InterfaceObject) : InterfaceObject :=
  let o := { o with session_store := insertStore o.session_store key data }
  match o.session with
  | none => o
  | some s =>
    let s := { s with data := insertStore s.data key data }
    let s := if save_session && s.hasSave then { s with saveCount := s.saveCount + 1 } else s
    { o with session := some s }

/-- `_retrieve_data(key)`: the local value if truthy, else the attached
session's value if a session is attached, else the (possibly falsy)
local result. -/
def retrieveData (o : InterfaceObject) (key : String) : Option String :=
  let data := lookupStore o.session_store key
  if pyTruthy data then data
  else
    match o.session with
    | some s => lookupStore s.data key
    | none => data

/-- The attached session's value for a key (`none` when no session). -/
def sessionLookup (o : InterfaceObject) (key : String) : Option String :=
  match o.session with
  | some s => lookupStore s.data key
  | none => none

/-- Ghost observer: the attached session's `save` call count. -/
def saveCountOf (o : InterfaceObject) : Nat :=
  match o.session with
  | some s => s.saveCount
  | none => 0

/-- Ghost observer: the attached session's `flush_crypto_blocks` call
count. -/
def flushCountOf (o : InterfaceObject) : Nat :=
  match o.session with
  | some s => s.flushCount
  | none => 0

/-- `_get_cached_username(remote_ip, remote_site)`. -/
def getCachedUsername (remote_ip remote_site : Option String)
    (o : InterfaceObject) : Option String :=
  retrieveData o (usernameKey remote_ip remote_site)

/-- `_set_cached_username(username, remote_ip, remote_site)`. -/
def setCachedUsername (username : String) (remote_ip remote_site : Option String)
    (o : InterfaceObject) : InterfaceObject :=
  storeData (usernameKey remote_ip remote_site) username true o

/-- `_set_cached_running_user(username, running_user)`. -/
def setCachedRunningUser (username running_user : String)
    (o : InterfaceObject) : InterfaceObject :=
  storeData (runningUserKey (some username)) running_user true o

/-- Modelled from the spec: the external session's `flush_crypto_blocks`
bulk operation (the SessionStore collaborator's clear-by-marker
capability, section 3 of the spec); its effect is to drop every entry
whose key carries the crypto-block marker. -/
def flushCryptoBlocks (s : Store) : Store :=
  s.filter (fun e => !(hasMark cryptoMark e.1))

/-- `_clear_crypto_blocks`: delete every local key that starts with
`CRYPTO_PREFIX`; on the attached session use `flush_crypto_blocks` when
exposed, otherwise enumerate the session's keys and delete the matching
ones. -/
def clearCryptoBlocks (o : InterfaceObject) : InterfaceObject :=
  let o := { o with
    session_store := o.session_store.filter (fun e => !(hasMark cryptoMark e.1)) }
  match o.session with
  | none => o
  | some s =>
    if s.hasFlush then
      let s' := { s with data := flushCryptoBlocks s.data, flushCount := s.flushCount + 1 }
      { o with session := some s' }
    else
      let s' := { s with data := s.data.filter (fun e => !(hasMark cryptoMark e.1)) }
      { o with session := some s' }

/-- `_password_is_set`. -/
def passwordIsSet (o : InterfaceObject) : Bool :=
  pyTruthy o.settings.password

/-- `_set_crypto_block(crypto_block, method_name)`. -/
def setCryptoBlock (crypto_block method_name : String)
    (o : InterfaceObject) : InterfaceObject :=
  storeData (cryptoSessionKey o.settings.username method_name) crypto_block true o

/-- `_start_session`: perform the remote call (incrementing the ghost
counter even when it raises); on success adopt the returned username when
it is new, caching it under the (remote_ip, remote_site) key together
with the running user, then cache the returned crypto block for method
`start_session` when there is one. -/
def startSession (remote : Except Unit RemoteResult)
    (o : InterfaceObject) : Except Unit (Option String) × InterfaceObject :=
  match remote with
  | Except.error e => (Except.error e, { o with remote_calls := o.remote_calls + 1 })
  | Except.ok r =>
    let o := { o with remote_calls := o.remote_calls + 1 }
    let o :=
      if !(pyTruthy o.settings.username) || (o.settings.username != some r.username) then
        let remote_ip := o.settings.remote_ip
        let remote_site := o.settings.remote_site
        let o := { o with settings := { o.settings with username := some r.username } }
        let o := setCachedUsername r.username remote_ip remote_site o
        setCachedRunningUser r.username r.running_user o
      else o
    let o :=
      if pyTruthy r.crypto_block then
        setCryptoBlock (r.crypto_block.getD "") "start_session" o
      else o
    (Except.ok r.crypto_block, o)

/-- `get_username`: when the settings hold no truthy username, look up the
cached username for the configured (remote_ip, remote_site) and bootstrap
when that too is falsy; finally return whatever the settings hold. -/
def getUsername (remote : Except Unit RemoteResult)
    (o : InterfaceObject) : Except Unit (Option String) × InterfaceObject :=
  if !(pyTruthy o.settings.username) then
    let cached := getCachedUsername o.settings.remote_ip o.settings.remote_site o
    if !(pyTruthy cached) then
      match startSession remote o with
      | (Except.error e, o') => (Except.error e, o')
      | (Except.ok _, o') => (Except.ok o'.settings.username, o')
    else (Except.ok o.settings.username, o)
  else (Except.ok o.settings.username, o)

/-- The shared head of `get_crypto_block` and
`_get_crypto_block_for_object`: `if not self.settings.get('username',
False): start_session_crypto = self._start_session()`. -/
def ensureUsername (remote : Except Unit RemoteResult)
    (o : InterfaceObject) : Except Unit (Option String) × InterfaceObject :=
  if pyTruthy o.settings.username then (Except.ok none, o)
  else startSession remote o

/-- `get_crypto_block(method_name, password_required)`. -/
def getCryptoBlock (method_name : String) (password_required : Bool)
    (remote : Except Unit RemoteResult)
    (o : InterfaceObject) : Except Unit (Option String) × InterfaceObject :=
  if password_required || (!password_required && !(passwordIsSet o)) then
    match ensureUsername remote o with
    | (Except.error e, o') => (Except.error e, o')
    | (Except.ok start_session_crypto, o') =>
      let session_key := cryptoSessionKey o'.settings.username method_name
      let crypto_block := retrieveData o' session_key
      if !(pyTruthy crypto_block) && (method_name == "start_session") then
        if pyTruthy start_session_crypto then (Except.ok start_session_crypto, o')
        else startSession remote o'
      else (Except.ok crypto_block, o')
  else (Except.ok none, o)

/-- `_set_crypto_for_object(crypto_block, method_name, interface_object)`. -/
def setCryptoForObject (crypto_block method_name : String) (interface_object : TxObject)
    (o : InterfaceObject) : InterfaceObject :=
  storeData (cryptoObjectKey o.settings.username method_name interface_object)
    crypto_block true o

/-- The loop body of `_set_crypto_for_objects`: `save_session` is true
exactly on the last element (`i == len(interface_objects) - 1`). -/
def setCryptoForObjectsGo (crypto_block method_name : String) :
    List TxObject → InterfaceObject → InterfaceObject
  | [], o => o
  | ob :: rest, o =>
    let key := cryptoObjectKey o.settings.username method_name ob
    match rest with
    | [] => storeData key crypto_block true o
    | _ :: _ =>
      setCryptoForObjectsGo crypto_block method_name rest
        (storeData key crypto_block false o)

/-- `_set_crypto_for_objects(crypto_block, method_name, interface_objects)`. -/
def setCryptoForObjects (crypto_block method_name : String)
    (interface_objects : List TxObject) (o : InterfaceObject) : InterfaceObject :=
  setCryptoForObjectsGo crypto_block method_name interface_objects o

/-- `_get_crypto_block_for_object(method_name, interface_object)`. -/
def getCryptoBlockForObject (method_name : String) (interface_object : TxObject)
    (remote : Except Unit RemoteResult)
    (o : InterfaceObject) : Except Unit (Option String) × InterfaceObject :=
  match ensureUsername remote o with
  | (Except.error e, o') => (Except.error e, o')
  | (Except.ok _, o') =>
    (Except.ok
      (retrieveData o' (cryptoObjectKey o'.settings.username method_name interface_object)),
      o')

/-- The username substitution at the head of `_configure`: when no truthy
username is supplied but remote_ip and remote_site are truthy, use the
cached username for that pair. -/
def resolveConfUsername (username remote_ip remote_site : Option String)
    (o : InterfaceObject) : Option String :=
  if !(pyTruthy username) && pyTruthy remote_ip && pyTruthy remote_site then
    getCachedUsername remote_ip remote_site o
  else username

/-- The `_configure` invalidation test: some prior identity field is
truthy and differs from its newly supplied value ( `'username' in
self.settings` is always true, the settings dict always has the key). -/
def configClearCond (st : Settings) (username remote_ip remote_site : Option String) : Bool :=
  (pyTruthy st.username && (username != st.username)) ||
  (pyTruthy st.remote_ip && (remote_ip != st.remote_ip)) ||
  (pyTruthy st.remote_site && (remote_site != st.remote_site))

/-- `_configure(...)`: resolve the username, clear the crypto blocks when
the identity changed, substitute defaults for falsy endpoint parameters,
and adopt the new settings.  (The `CoreAPI` it constructs lives outside
`src/`; the remote argument of `startSession` models it.) -/
def configure (username password url no_time_descr : Option String)
    (api_request_timeout : Option Nat)
    (default_concession_descr remote_ip remote_site accept_language
      ext_start_session_url : Option String)
    (o : InterfaceObject) : InterfaceObject :=
  let username := resolveConfUsername username remote_ip remote_site o
  let o := if configClearCond o.settings username remote_ip remote_site
    then clearCryptoBlocks o else o
  let url := if !(pyTruthy url) then some API_URL else url
  let ext_start_session_url :=
    if !(pyTruthy ext_start_session_url) then some EXT_START_SESSION_URL
    else ext_start_session_url
  let api_request_timeout :=
    if !(pyTruthyNat api_request_timeout) then some API_REQUEST_TIMEOUT
    else api_request_timeout
  let no_time_descr := if !(pyTruthy no_time_descr) then some NO_TIME_DESCR else no_time_descr
  let default_concession_descr :=
    if !(pyTruthy default_concession_descr) then some DEFAULT_CONCESSION_DESCR
    else default_concession_descr
  { o with settings :=
    { username := username
      password := password
      remote_ip := remote_ip
      remote_site := remote_site
      accept_language := accept_language
      url := url
      ext_start_session_url := ext_start_session_url
      api_request_timeout := api_request_timeout
      no_time_descr := no_time_descr
      default_concession_descr := default_concession_descr } }

/-- The settings dict of a freshly constructed object
(`_get_settings()` with every argument `None`). -/
def emptySettings : Settings :=
  { username := none, password := none, remote_ip := none, remote_site := none
    accept_language := none, url := none, ext_start_session_url := none
    api_request_timeout := none, no_time_descr := none
    default_concession_descr := none }

/-- `__init__` with only the `session` kwarg consumed: empty settings,
empty local store, the given session attached. -/
def freshObject (session : Option Session) : InterfaceObject :=
  { settings := emptySettings, session_store := [], session := session, remote_calls := 0 }

/-! ### Helper lemmas about strings and keys -/

theorem isPrefixOf_append_self (l t : List Char) : l.isPrefixOf (l ++ t) = true := by
  induction l with
  | nil => simp [List.isPrefixOf]
  | cons a as ih => simp [List.isPrefixOf, ih]

theorem isPrefixOf_false_of_head_ne (x y : Char) (l1 l2 : List Char) (h : x ≠ y) :
    (x :: l1).isPrefixOf (y :: l2) = false := by
  simp [List.isPrefixOf, h]

theorem hasMark_append (m t : String) : hasMark m (m ++ t) = true := by
  unfold hasMark
  rw [String.data_append]
  exact isPrefixOf_append_self m.data t.data

theorem strAppend_cancel_left (s t u : String) (h : s ++ t = s ++ u) : t = u := by
  have hd : (s ++ t).data = (s ++ u).data := by rw [h]
  rw [String.data_append, String.data_append] at hd
  exact String.ext (List.append_cancel_left hd)

theorem str_ne_of_head_ne (a b : String) (x y : Char) (la lb : List Char)
    (ha : a.data = x :: la) (hb : b.data = y :: lb) (hxy : x ≠ y) : a ≠ b := by
  intro h
  rw [h, hb] at ha
  exact hxy (List.cons_eq_cons.mp ha.symm).1

theorem hasMark_cryptoSessionKey (u : Option String) (m : String) :
    hasMark cryptoMark (cryptoSessionKey u m) = true :=
  hasMark_append cryptoMark _

theorem hasMark_cryptoObjectKey (u : Option String) (m : String) (ob : TxObject) :
    hasMark cryptoMark (cryptoObjectKey u m ob) = true := by
  unfold cryptoObjectKey cryptoSessionKey
  unfold hasMark
  rw [String.data_append, String.data_append]
  rw [List.append_assoc]
  exact isPrefixOf_append_self cryptoMark.data _

theorem hasMark_crypto_usernameKey (ip site : Option String) :
    hasMark cryptoMark (usernameKey ip site) = false := by
  unfold hasMark usernameKey
  rw [String.data_append]
  rw [show cryptoMark.data = 'C' :: "RYPTO_BLOCK".data from rfl,
      show usernameMark.data = 'U' :: "SERNAME".data from rfl]
  rw [List.cons_append]
  exact isPrefixOf_false_of_head_ne 'C' 'U' _ _ (by decide)

theorem hasMark_crypto_runningUserKey (u : Option String) :
    hasMark cryptoMark (runningUserKey u) = false := by
  unfold hasMark runningUserKey
  rw [String.data_append]
  rw [show cryptoMark.data = 'C' :: "RYPTO_BLOCK".data from rfl,
      show runningUserMark.data = 'R' :: "UNNING_USER".data from rfl]
  rw [List.cons_append]
  exact isPrefixOf_false_of_head_ne 'C' 'R' _ _ (by decide)

theorem cryptoSessionKey_ne_usernameKey (u : Option String) (m : String)
    (ip site : Option String) : cryptoSessionKey u m ≠ usernameKey ip site := by
  apply str_ne_of_head_ne _ _ 'C' 'U'
    ("RYPTO_BLOCK".data ++ ("_" ++ (pyStr u ++ ("_" ++ m))).data)
    ("SERNAME".data ++ ("_" ++ (pyStr ip ++ ("_" ++ pyStr site))).data)
  · unfold cryptoSessionKey
    rw [String.data_append, show cryptoMark.data = 'C' :: "RYPTO_BLOCK".data from rfl,
      List.cons_append]
  · unfold usernameKey
    rw [String.data_append, show usernameMark.data = 'U' :: "SERNAME".data from rfl,
      List.cons_append]
  · decide

theorem runningUserKey_ne_usernameKey (u : Option String)
    (ip site : Option String) : runningUserKey u ≠ usernameKey ip site := by
  apply str_ne_of_head_ne _ _ 'R' 'U'
    ("UNNING_USER".data ++ ("_" ++ pyStr u).data)
    ("SERNAME".data ++ ("_" ++ (pyStr ip ++ ("_" ++ pyStr site))).data)
  · unfold runningUserKey
    rw [String.data_append, show runningUserMark.data = 'R' :: "UNNING_USER".data from rfl,
      List.cons_append]
  · unfold usernameKey
    rw [String.data_append, show usernameMark.data = 'U' :: "SERNAME".data from rfl,
      List.cons_append]
  · decide

theorem cryptoObjectKey_ne_of_cache_key_ne (u : Option String) (m : String)
    (a b : TxObject) (h : a.cache_key ≠ b.cache_key) :
    cryptoObjectKey u m a ≠ cryptoObjectKey u m b := by
  intro he
  unfold cryptoObjectKey at he
  have h1 := strAppend_cancel_left _ _ _ he
  exact h (strAppend_cancel_left "_" _ _ h1)

/-! ### Helper lemmas about the stores -/

theorem lookup_insert_self (s : Store) (k v : String) :
    lookupStore (insertStore s k v) k = some v := by
  simp [lookupStore, insertStore, List.find?]

theorem lookup_insert_ne (s : Store) (k' k v : String) (h : k' ≠ k) :
    lookupStore (insertStore s k' v) k = lookupStore s k := by
  simp [lookupStore, insertStore, List.find?, beq_eq_false_iff_ne.mpr h]

theorem lookup_filter_false (s : Store) (p : String → Bool) (k : String) (h : p k = false) :
    lookupStore (s.filter (fun e => p e.1)) k = none := by
  induction s with
  | nil => rfl
  | cons a as ih =>
    by_cases hak : a.1 = k
    · subst hak
      simp [List.filter, h, ih]
    · simp only [List.filter]
      cases hpa : p a.1 with
      | false => exact ih
      | true =>
        simp [lookupStore, List.find?, beq_eq_false_iff_ne.mpr hak]
        simpa [lookupStore] using ih

theorem lookup_filter_true (s : Store) (p : String → Bool) (k : String) (h : p k = true) :
    lookupStore (s.filter (fun e => p e.1)) k = lookupStore s k := by
  induction s with
  | nil => rfl
  | cons a as ih =>
    by_cases hak : a.1 = k
    · subst hak
      simp [List.filter, h, lookupStore, List.find?]
    · simp only [List.filter]
      cases hpa : p a.1 with
      | false =>
        rw [ih]
        simp [lookupStore, List.find?, beq_eq_false_iff_ne.mpr hak]
      | true =>
        simp only [lookupStore, List.find?, beq_eq_false_iff_ne.mpr hak]
        simpa [lookupStore] using ih

/-! ### Frame lemmas for `storeData` and `startSession` -/

theorem storeData_settings (k v : String) (b : Bool) (o : InterfaceObject) :
    (storeData k v b o).settings = o.settings := by
  unfold storeData
  cases o.session <;> simp

theorem storeData_remote_calls (k v : String) (b : Bool) (o : InterfaceObject) :
    (storeData k v b o).remote_calls = o.remote_calls := by
  unfold storeData
  cases o.session <;> simp

theorem storeData_local (k v : String) (b : Bool) (o : InterfaceObject) :
    (storeData k v b o).session_store = insertStore o.session_store k v := by
  unfold storeData
  cases o.session <;> simp

theorem storeData_session_none (k v : String) (b : Bool) (o : InterfaceObject)
    (h : o.session = none) : (storeData k v b o).session = none := by
  unfold storeData
  rw [h]

theorem storeData_session_some (k v : String) (b : Bool) (o : InterfaceObject) (s : Session)
    (h : o.session = some s) :
    (storeData k v b o).session = some
      { s with data := insertStore s.data k v,
               saveCount := if b && s.hasSave then s.saveCount + 1 else s.saveCount } := by
  unfold storeData
  rw [h]
  by_cases hb : b && s.hasSave <;> simp [hb]

theorem retrieveData_storeData_ne (k' k v : String) (b : Bool) (o : InterfaceObject)
    (h : k' ≠ k) : retrieveData (storeData k' v b o) k = retrieveData o k := by
  unfold retrieveData
  rw [storeData_local, lookup_insert_ne _ _ _ _ h]
  cases hs : o.session with
  | none => rw [storeData_session_none _ _ _ _ hs]
  | some s =>
    rw [storeData_session_some _ _ _ _ _ hs]
    simp only [lookup_insert_ne _ _ _ _ h]

theorem sessionLookup_storeData_ne (k' k v : String) (b : Bool) (o : InterfaceObject)
    (h : k' ≠ k) : sessionLookup (storeData k' v b o) k = sessionLookup o k := by
  unfold sessionLookup
  cases hs : o.session with
  | none => rw [storeData_session_none _ _ _ _ hs]
  | some s =>
    rw [storeData_session_some _ _ _ _ _ hs]
    simp only [lookup_insert_ne _ _ _ _ h]

theorem storeData_saveCount (k v : String) (o : InterfaceObject) (s : Session)
    (h : o.session = some s) (hsave : s.hasSave = true) :
    saveCountOf (storeData k v true o) = saveCountOf o + 1 := by
  unfold saveCountOf
  rw [h, storeData_session_some _ _ _ _ _ h]
  simp [hsave]

theorem storeData_saveCount_false (k v : String) (o : InterfaceObject) :
    saveCountOf (storeData k v false o) = saveCountOf o := by
  unfold saveCountOf
  cases hs : o.session with
  | none => rw [storeData_session_none _ _ _ _ hs]
  | some s =>
    rw [storeData_session_some _ _ _ _ _ hs]
    simp

theorem startSession_error (o : InterfaceObject) :
    startSession (Except.error ()) o =
      (Except.error (), { o with remote_calls := o.remote_calls + 1 }) := rfl

theorem startSession_ok_fst (r : RemoteResult) (o : InterfaceObject) :
    (startSession (Except.ok r) o).1 = Except.ok r.crypto_block := rfl

theorem startSession_ok_username (r : RemoteResult) (o : InterfaceObject) :
    (startSession (Except.ok r) o).2.settings.username = some r.username := by
  unfold startSession
  dsimp only
  split_ifs <;>
    simp_all [setCachedRunningUser, setCachedUsername, setCryptoBlock, storeData_settings,
      bne_iff_ne]

theorem startSession_ok_remote_calls (r : RemoteResult) (o : InterfaceObject) :
    (startSession (Except.ok r) o).2.remote_calls = o.remote_calls + 1 := by
  unfold startSession
  dsimp only
  split_ifs <;>
    simp_all [setCachedRunningUser, setCachedUsername, setCryptoBlock, storeData_remote_calls]

theorem retrieveData_storeData_self (k v : String) (b : Bool) (o : InterfaceObject) :
    retrieveData (storeData k v b o) k = some v := by
  unfold retrieveData
  rw [storeData_local, lookup_insert_self]
  by_cases hv : pyTruthy (some v) = true
  · rw [if_pos hv]
  · rw [if_neg hv]
    cases hs : o.session with
    | none => rw [storeData_session_none _ _ _ _ hs]
    | some s =>
      rw [storeData_session_some _ _ _ _ _ hs]
      simp [lookup_insert_self]

theorem retrieveData_eq_none (o : InterfaceObject) (k : String)
    (h1 : lookupStore o.session_store k = none) (h2 : sessionLookup o k = none) :
    retrieveData o k = none := by
  unfold retrieveData
  unfold sessionLookup at h2
  rw [h1]
  cases hs : o.session with
  | none => simp [pyTruthy]
  | some s =>
    rw [hs] at h2
    have h2' : lookupStore s.data k = none := by simpa using h2
    simp [pyTruthy, h2']

theorem ensureUsername_username_truthy (r : RemoteResult) (o o' : InterfaceObject)
    (v : Option String) (hru : r.username ≠ "")
    (h : ensureUsername (Except.ok r) o = (Except.ok v, o')) :
    pyTruthy o'.settings.username = true := by
  unfold ensureUsername at h
  by_cases ht : pyTruthy o.settings.username = true
  · rw [if_pos ht] at h
    have h2 : o' = o := (congrArg Prod.snd h).symm
    rw [h2]
    exact ht
  · rw [if_neg ht] at h
    have h2 : o' = (startSession (Except.ok r) o).2 := (congrArg Prod.snd h).symm
    rw [h2, startSession_ok_username]
    simp [pyTruthy, hru]

/-! ### The claims -/

/-- C5: `_start_session` performs the remote call first; when the remote
`start_session` raises, the error propagates and neither the local store,
nor the attached session, nor the settings are touched (no username,
running-user or crypto-block entry is written). -/
theorem c5_bootstrap_failure_no_partial_state (o : InterfaceObject) :
    (startSession (Except.error ()) o).1 = Except.error () ∧
    (startSession (Except.error ()) o).2.session_store = o.session_store ∧
    (startSession (Except.error ()) o).2.session = o.session ∧
    (startSession (Except.error ()) o).2.settings = o.settings :=
  ⟨rfl, rfl, rfl, rfl⟩

/-- A concrete session fixture used by witnesses. -/
def wSession : Session :=
  { data := [("b", "y")], hasSave := true, hasFlush := false, saveCount := 0, flushCount := 0 }

/-- A concrete object fixture: truthy local value under `"a"`. -/
def wObjA : InterfaceObject :=
  { settings := emptySettings, session_store := [("a", "x")], session := none, remote_calls := 0 }

/-- A concrete object fixture: empty local store, session attached. -/
def wObjB : InterfaceObject :=
  { settings := emptySettings, session_store := [], session := some wSession, remote_calls := 0 }

/-- A concrete object fixture: falsy local value, no session. -/
def wObjD : InterfaceObject :=
  { settings := emptySettings, session_store := [("d", "")], session := none, remote_calls := 0 }

/-- C10 (amended): `_retrieve_data` returns the truthy local value when
there is one; on a falsy local value it falls back to the attached
session's value when a session is attached; a key absent from both stores
yields `none`; but with no session attached the (possibly falsy) local
result is returned as-is. -/
theorem c10_retrieve_local_then_session
    (o₁ o₂ o₃ o₄ : InterfaceObject) (k₁ k₂ k₃ k₄ : String) (s : Session)
    (h1 : pyTruthy (lookupStore o₁.session_store k₁) = true)
    (h2 : pyTruthy (lookupStore o₂.session_store k₂) = false)
    (h2s : o₂.session = some s)
    (h3 : lookupStore o₃.session_store k₃ = none)
    (h3s : sessionLookup o₃ k₃ = none)
    (h4 : pyTruthy (lookupStore o₄.session_store k₄) = false)
    (h4s : o₄.session = none) :
    retrieveData o₁ k₁ = lookupStore o₁.session_store k₁ ∧
    retrieveData o₂ k₂ = lookupStore s.data k₂ ∧
    retrieveData o₃ k₃ = none ∧
    retrieveData o₄ k₄ = lookupStore o₄.session_store k₄ := by
  refine ⟨?_, ?_, ?_, ?_⟩
  · unfold retrieveData
    rw [if_pos h1]
  · unfold retrieveData
    rw [if_neg (by rw [h2]; exact Bool.false_ne_true), h2s]
  · exact retrieveData_eq_none o₃ k₃ h3 h3s
  · unfold retrieveData
    rw [if_neg (by rw [h4]; exact Bool.false_ne_true), h4s]

/-- C10 counterexample: with no session attached and a falsy (empty
string) value cached locally, `_retrieve_data` returns that local falsy
value itself, so it does not return the locally cached value "only when
that value is truthy". -/
theorem c10_counterexample :
    lookupStore ([("k", "")] : Store) "k" = some "" ∧
    pyTruthy (some "") = false ∧
    retrieveData
      { settings := emptySettings, session_store := [("k", "")],
        session := none, remote_calls := 0 } "k" = some "" := by
  refine ⟨by decide, by decide, by decide⟩

/-- C10 witness for the amended theorem. -/
theorem c10_witness :
    pyTruthy (lookupStore wObjA.session_store "a") = true ∧
    pyTruthy (lookupStore wObjB.session_store "b") = false ∧
    pyTruthy (lookupStore (freshObject none).session_store "c") = false ∧
    pyTruthy (lookupStore wObjD.session_store "d") = false ∧
    (retrieveData wObjA "a" = lookupStore wObjA.session_store "a" ∧
      retrieveData wObjB "b" = lookupStore wSession.data "b" ∧
      retrieveData (freshObject none) "c" = none ∧
      retrieveData wObjD "d" = lookupStore wObjD.session_store "d") :=
  ⟨by decide, by decide, by decide, by decide,
    c10_retrieve_local_then_session wObjA wObjB (freshObject none) wObjD
      "a" "b" "c" "d" wSession
      (by decide) (by decide) (by decide) (by decide) (by decide) (by decide) (by decide)⟩

/-- C2 (amended): the retrieval operations resolve a username before the
crypto key is derived: provided the remote bootstrap reports a non-empty
username, `_get_crypto_block_for_object` (and the shared
ensure-username head of `get_crypto_block`, after which those functions
derive their key) leaves a truthy username in the settings, and the
returned value is the store lookup under the key derived from it.  The
storage operations (`_set_crypto_block`, `_set_crypto_for_object`,
`_set_crypto_for_objects`) perform no such check (see the
counterexample). -/
theorem c2_username_resolved_at_key_derivation
    (method_name : String) (ob : TxObject) (r : RemoteResult)
    (o o' o₂ o₂' : InterfaceObject) (v v₂ : Option String)
    (hru : r.username ≠ "")
    (hrun : getCryptoBlockForObject method_name ob (Except.ok r) o = (Except.ok v, o'))
    (hrun₂ : ensureUsername (Except.ok r) o₂ = (Except.ok v₂, o₂')) :
    pyTruthy o'.settings.username = true ∧
    v = retrieveData o' (cryptoObjectKey o'.settings.username method_name ob) ∧
    pyTruthy o₂'.settings.username = true := by
  have hmain : pyTruthy o'.settings.username = true ∧
      v = retrieveData o' (cryptoObjectKey o'.settings.username method_name ob) := by
    unfold getCryptoBlockForObject at hrun
    rcases h1 : ensureUsername (Except.ok r) o with ⟨res, o₁⟩
    rw [h1] at hrun
    cases res with
    | error e => simp at hrun
    | ok ssc =>
      simp only [Prod.mk.injEq, Except.ok.injEq] at hrun
      obtain ⟨hv, ho⟩ := hrun
      rw [← ho, ← hv]
      exact ⟨ensureUsername_username_truthy r o o₁ ssc hru h1, rfl⟩
  exact ⟨hmain.1, hmain.2, ensureUsername_username_truthy r o₂ o₂' v₂ hru hrun₂⟩

/-- C2 counterexample: `_set_crypto_for_object` on an instance whose
settings hold no username still derives a storage key (embedding the
formatted `None`) and stores under it: a crypto block is stored although
no resolved username is present. -/
theorem c2_counterexample :
    (freshObject none).settings.username = none ∧
    (setCryptoForObject "blk" "reserve" { cache_key := "B1" } (freshObject none)).settings.username
      = none ∧
    lookupStore (setCryptoForObject "blk" "reserve" { cache_key := "B1" }
      (freshObject none)).session_store "CRYPTO_BLOCK_None_reserve_B1" = some "blk" := by
  refine ⟨by decide, by decide, by decide⟩

/-- C2 witness for the amended theorem. -/
theorem c2_witness :
    (("u" : String) ≠ "") ∧
    (getCryptoBlockForObject "reserve" { cache_key := "A" }
      (Except.ok { crypto_block := none, username := "u", running_user := "ru" })
      (freshObject none) =
      (Except.ok none,
        (getCryptoBlockForObject "reserve" { cache_key := "A" }
          (Except.ok { crypto_block := none, username := "u", running_user := "ru" })
          (freshObject none)).2)) ∧
    (ensureUsername (Except.ok { crypto_block := none, username := "u", running_user := "ru" })
      (freshObject none) =
      (Except.ok none, (ensureUsername
        (Except.ok { crypto_block := none, username := "u", running_user := "ru" })
        (freshObject none)).2)) ∧
    pyTruthy (getCryptoBlockForObject "reserve" { cache_key := "A" }
      (Except.ok { crypto_block := none, username := "u", running_user := "ru" })
      (freshObject none)).2.settings.username = true :=
  ⟨by decide, by rfl, by rfl,
    (c2_username_resolved_at_key_derivation "reserve" { cache_key := "A" }
      { crypto_block := none, username := "u", running_user := "ru" }
      (freshObject none)
      (getCryptoBlockForObject "reserve" { cache_key := "A" }
        (Except.ok { crypto_block := none, username := "u", running_user := "ru" })
        (freshObject none)).2
      (freshObject none)
      (ensureUsername (Except.ok { crypto_block := none, username := "u", running_user := "ru" })
        (freshObject none)).2
      none none
      (by decide) (by rfl) (by rfl)).1⟩

/-- C6: for two transactional objects with distinct identity tokens the
derived storage keys are distinct, and a block stored for object B leaves
the retrieval for object A exactly as it was before the store. -/
theorem c6_object_key_isolation (o : InterfaceObject) (u : Option String)
    (m crypto_block : String) (a b : TxObject) (remote : Except Unit RemoteResult)
    (hab : a.cache_key ≠ b.cache_key)
    (hu : pyTruthy o.settings.username = true) :
    cryptoObjectKey u m a ≠ cryptoObjectKey u m b ∧
    (getCryptoBlockForObject m a remote (setCryptoForObject crypto_block m b o)).1 =
      Except.ok (retrieveData o (cryptoObjectKey o.settings.username m a)) := by
  constructor
  · exact cryptoObjectKey_ne_of_cache_key_ne u m a b hab
  · unfold getCryptoBlockForObject ensureUsername setCryptoForObject
    rw [storeData_settings]
    rw [if_pos hu]
    dsimp only
    rw [storeData_settings]
    rw [retrieveData_storeData_ne _ _ _ _ _
      (cryptoObjectKey_ne_of_cache_key_ne o.settings.username m b a (Ne.symm hab))]

/-- C7: storing a crypto block for an object and immediately retrieving
it with the same username, method name and object identity returns the
original value unchanged. -/
theorem c7_crypto_block_round_trip (o : InterfaceObject) (crypto_block m : String)
    (ob : TxObject) (remote : Except Unit RemoteResult)
    (hu : pyTruthy o.settings.username = true) :
    (getCryptoBlockForObject m ob remote (setCryptoForObject crypto_block m ob o)).1 =
      Except.ok (some crypto_block) := by
  unfold getCryptoBlockForObject ensureUsername setCryptoForObject
  rw [storeData_settings]
  rw [if_pos hu]
  dsimp only
  rw [storeData_settings]
  rw [retrieveData_storeData_self]

/-- A concrete object fixture with a resolved username. -/
def wIdObj : InterfaceObject :=
  { settings := { emptySettings with username := some "u" }, session_store := [],
    session := none, remote_calls := 0 }

/-- C6 witness. -/
theorem c6_witness :
    (("A" : String) ≠ "B") ∧
    pyTruthy wIdObj.settings.username = true ∧
    (cryptoObjectKey (some "x") "reserve" { cache_key := "A" } ≠
        cryptoObjectKey (some "x") "reserve" { cache_key := "B" } ∧
      (getCryptoBlockForObject "reserve" { cache_key := "A" } (Except.error ())
        (setCryptoForObject "blk" "reserve" { cache_key := "B" } wIdObj)).1 =
        Except.ok (retrieveData wIdObj
          (cryptoObjectKey wIdObj.settings.username "reserve" { cache_key := "A" }))) :=
  ⟨by decide, by decide,
    c6_object_key_isolation wIdObj (some "x") "reserve" "blk"
      { cache_key := "A" } { cache_key := "B" } (Except.error ())
      (by decide) (by decide)⟩

/-- C7 witness. -/
theorem c7_witness :
    pyTruthy wIdObj.settings.username = true ∧
    (getCryptoBlockForObject "reserve" { cache_key := "A" } (Except.error ())
      (setCryptoForObject "blk" "reserve" { cache_key := "A" } wIdObj)).1 =
      Except.ok (some "blk") :=
  ⟨by decide,
    c7_crypto_block_round_trip wIdObj "blk" "reserve" { cache_key := "A" }
      (Except.error ()) (by decide)⟩

/-! ### `_clear_crypto_blocks` -/

theorem clear_local (o : InterfaceObject) :
    (clearCryptoBlocks o).session_store
      = o.session_store.filter (fun e => !(hasMark cryptoMark e.1)) := by
  unfold clearCryptoBlocks
  dsimp only
  cases o.session with
  | none => rfl
  | some s => by_cases h : s.hasFlush = true <;> simp [h]

theorem clear_session_none (o : InterfaceObject) (hs : o.session = none) :
    (clearCryptoBlocks o).session = none := by
  unfold clearCryptoBlocks
  dsimp only
  rw [hs]

theorem clear_session (o : InterfaceObject) (s : Session) (hs : o.session = some s) :
    (clearCryptoBlocks o).session = some (if s.hasFlush
      then { s with data := flushCryptoBlocks s.data, flushCount := s.flushCount + 1 }
      else { s with data := s.data.filter (fun e => !(hasMark cryptoMark e.1)) }) := by
  unfold clearCryptoBlocks
  dsimp only
  rw [hs]
  by_cases h : s.hasFlush = true <;> simp [h]

theorem lookup_filter_crypto_marked (s : Store) (k : String)
    (hk : hasMark cryptoMark k = true) :
    lookupStore (s.filter (fun e => !(hasMark cryptoMark e.1))) k = none :=
  lookup_filter_false s (fun x => !(hasMark cryptoMark x)) k
    (show (!(hasMark cryptoMark k)) = false by simp [hk])

theorem lookup_filter_crypto_unmarked (s : Store) (k : String)
    (hk : hasMark cryptoMark k = false) :
    lookupStore (s.filter (fun e => !(hasMark cryptoMark e.1))) k = lookupStore s k :=
  lookup_filter_true s (fun x => !(hasMark cryptoMark x)) k
    (show (!(hasMark cryptoMark k)) = true by simp [hk])

/-- C8: after `_clear_crypto_blocks`, no crypto-marked key survives in the
local store while unmarked local entries are untouched; marked entries are
also gone from the attached session, whose unmarked entries survive; the
session is cleared through one `flush_crypto_blocks` call exactly when it
exposes that method, and through per-key deletion otherwise (the ghost
flush counter increments only in the first case). -/
theorem c8_clear_crypto_blocks (o : InterfaceObject) (s : Session) (k k' : String)
    (hs : o.session = some s)
    (hk : hasMark cryptoMark k = true)
    (hk' : hasMark cryptoMark k' = false) :
    lookupStore (clearCryptoBlocks o).session_store k = none ∧
    lookupStore (clearCryptoBlocks o).session_store k' = lookupStore o.session_store k' ∧
    sessionLookup (clearCryptoBlocks o) k = none ∧
    sessionLookup (clearCryptoBlocks o) k' = lookupStore s.data k' ∧
    flushCountOf (clearCryptoBlocks o) =
      (if s.hasFlush then s.flushCount + 1 else s.flushCount) := by
  refine ⟨?_, ?_, ?_, ?_, ?_⟩
  · rw [clear_local]
    exact lookup_filter_crypto_marked _ _ hk
  · rw [clear_local]
    exact lookup_filter_crypto_unmarked _ _ hk'
  · unfold sessionLookup
    rw [clear_session o s hs]
    dsimp only
    by_cases h : s.hasFlush = true
    · rw [if_pos h]
      dsimp only
      unfold flushCryptoBlocks
      exact lookup_filter_crypto_marked _ _ hk
    · rw [if_neg h]
      dsimp only
      exact lookup_filter_crypto_marked _ _ hk
  · unfold sessionLookup
    rw [clear_session o s hs]
    dsimp only
    by_cases h : s.hasFlush = true
    · rw [if_pos h]
      dsimp only
      unfold flushCryptoBlocks
      exact lookup_filter_crypto_unmarked _ _ hk'
    · rw [if_neg h]
      dsimp only
      exact lookup_filter_crypto_unmarked _ _ hk'
  · unfold flushCountOf
    rw [clear_session o s hs]
    by_cases h : s.hasFlush = true <;> simp [h]

/-- A concrete attached-session fixture for the C8 witness. -/
def wClearSession : Session :=
  { data := [("CRYPTO_BLOCK_x", "v"), ("OTHER", "w")], hasSave := false,
    hasFlush := false, saveCount := 0, flushCount := 0 }

/-- A concrete object fixture for the C8 witness. -/
def wClearObj : InterfaceObject :=
  { settings := emptySettings, session_store := [("CRYPTO_BLOCK_y", "a"), ("KEEP", "b")],
    session := some wClearSession, remote_calls := 0 }

/-- C8 witness. -/
theorem c8_witness :
    wClearObj.session = some wClearSession ∧
    hasMark cryptoMark "CRYPTO_BLOCK_y" = true ∧
    hasMark cryptoMark "KEEP" = false ∧
    (lookupStore (clearCryptoBlocks wClearObj).session_store "CRYPTO_BLOCK_y" = none ∧
      lookupStore (clearCryptoBlocks wClearObj).session_store "KEEP" =
        lookupStore wClearObj.session_store "KEEP" ∧
      sessionLookup (clearCryptoBlocks wClearObj) "CRYPTO_BLOCK_y" = none ∧
      sessionLookup (clearCryptoBlocks wClearObj) "KEEP" =
        lookupStore wClearSession.data "KEEP" ∧
      flushCountOf (clearCryptoBlocks wClearObj) =
        (if wClearSession.hasFlush then wClearSession.flushCount + 1
          else wClearSession.flushCount)) :=
  ⟨by decide, by decide, by decide,
    c8_clear_crypto_blocks wClearObj wClearSession "CRYPTO_BLOCK_y" "KEEP"
      (by decide) (by decide) (by decide)⟩

/-- The pre-reconfiguration fixture for the C1 counterexample: an instance
with identity `alice` and a cached crypto block for method
`start_session`. -/
def wAliceSettings : Settings :=
  { emptySettings with
    username := some "alice", remote_ip := some "ip", remote_site := some "site" }

/-- The object holding `wAliceSettings` and a cached crypto block. -/
def wAliceObj : InterfaceObject :=
  { settings := wAliceSettings,
    session_store := [("CRYPTO_BLOCK_alice_start_session", "blk")],
    session := none, remote_calls := 0 }

/-- C1 counterexample: reconfiguring `wAliceObj` with a different username
does purge the cached blocks, but a subsequent `get_crypto_block` for the
previously cached method `start_session` does not return absent: it
bootstraps and returns the fresh block, contradicting the claim's
"returns absent" for that method. -/
theorem c1_counterexample :
    lookupStore wAliceObj.session_store "CRYPTO_BLOCK_alice_start_session" = some "blk" ∧
    (getCryptoBlock "start_session" true
      (Except.ok { crypto_block := some "newblk", username := "bob", running_user := "ru" })
      (configure (some "bob") none none none none none (some "ip") (some "site") none none
        wAliceObj)).1 = Except.ok (some "newblk") := by
  refine ⟨by decide, by rfl⟩

/-- C3 counterexample: a fresh context with no password and no username,
where the remote bootstrap yields no crypto block: `get_crypto_block
("start_session", password_required=False)` performs the remote bootstrap
twice, not exactly once. -/
theorem c3_counterexample :
    passwordIsSet (freshObject none) = false ∧
    pyTruthy (freshObject none).settings.username = false ∧
    (getCryptoBlock "start_session" false
      (Except.ok { crypto_block := none, username := "u", running_user := "ru" })
      (freshObject none)).2.remote_calls = 2 := by
  refine ⟨by decide, by decide, by decide⟩

/-! ### `_set_crypto_for_objects` -/

theorem setGo_settings (cb m : String) (l : List TxObject) :
    ∀ o : InterfaceObject, (setCryptoForObjectsGo cb m l o).settings = o.settings := by
  induction l with
  | nil => intro o; rfl
  | cons ob rest ih =>
    intro o
    cases rest with
    | nil => exact storeData_settings _ _ _ _
    | cons ob2 rest2 =>
      show (setCryptoForObjectsGo cb m (ob2 :: rest2)
        (storeData (cryptoObjectKey o.settings.username m ob) cb false o)).settings
        = o.settings
      rw [ih]
      exact storeData_settings _ _ _ _

theorem setGo_saveCount (cb m : String) (l : List TxObject) :
    ∀ (o : InterfaceObject) (s : Session), l ≠ [] → o.session = some s → s.hasSave = true →
      saveCountOf (setCryptoForObjectsGo cb m l o) = saveCountOf o + 1 := by
  induction l with
  | nil => intro o s hne _ _; exact absurd rfl hne
  | cons ob rest ih =>
    intro o s _ hsess hsave
    cases rest with
    | nil =>
      show saveCountOf (storeData (cryptoObjectKey o.settings.username m ob) cb true o)
        = saveCountOf o + 1
      exact storeData_saveCount _ _ _ _ hsess hsave
    | cons ob2 rest2 =>
      show saveCountOf (setCryptoForObjectsGo cb m (ob2 :: rest2)
        (storeData (cryptoObjectKey o.settings.username m ob) cb false o)) = saveCountOf o + 1
      have hsess' : (storeData (cryptoObjectKey o.settings.username m ob) cb false o).session
          = some ({ s with
              data := insertStore s.data (cryptoObjectKey o.settings.username m ob) cb }) := by
        rw [storeData_session_some _ _ _ _ _ hsess]
        simp
      rw [ih _ _ (List.cons_ne_nil _ _) hsess' (by simpa using hsave)]
      rw [storeData_saveCount_false]

theorem setGo_lookup_or (cb m : String) (l : List TxObject) :
    ∀ (o : InterfaceObject) (k : String),
      lookupStore (setCryptoForObjectsGo cb m l o).session_store k = some cb ∨
      lookupStore (setCryptoForObjectsGo cb m l o).session_store k
        = lookupStore o.session_store k := by
  induction l with
  | nil => intro o k; right; rfl
  | cons ob rest ih =>
    intro o k
    cases rest with
    | nil =>
      show lookupStore (storeData (cryptoObjectKey o.settings.username m ob) cb
        true o).session_store k = some cb ∨
        lookupStore (storeData (cryptoObjectKey o.settings.username m ob) cb
          true o).session_store k = lookupStore o.session_store k
      rw [storeData_local]
      by_cases hk : cryptoObjectKey o.settings.username m ob = k
      · left
        subst hk
        exact lookup_insert_self _ _ _
      · right
        exact lookup_insert_ne _ _ _ _ hk
    | cons ob2 rest2 =>
      show lookupStore (setCryptoForObjectsGo cb m (ob2 :: rest2)
        (storeData (cryptoObjectKey o.settings.username m ob) cb false o)).session_store k
          = some cb ∨
        lookupStore (setCryptoForObjectsGo cb m (ob2 :: rest2)
          (storeData (cryptoObjectKey o.settings.username m ob) cb false o)).session_store k
          = lookupStore o.session_store k
      rcases ih (storeData (cryptoObjectKey o.settings.username m ob) cb false o) k with h | h
      · left; exact h
      · rw [h, storeData_local]
        by_cases hk : cryptoObjectKey o.settings.username m ob = k
        · left
          subst hk
          exact lookup_insert_self _ _ _
        · right
          exact lookup_insert_ne _ _ _ _ hk

theorem sessionLookup_storeData_self (k v : String) (b : Bool) (o : InterfaceObject)
    (s : Session) (h : o.session = some s) :
    sessionLookup (storeData k v b o) k = some v := by
  unfold sessionLookup
  rw [storeData_session_some _ _ _ _ _ h]
  dsimp only
  exact lookup_insert_self _ _ _

theorem sessionLookup_storeData_or (k' k v : String) (b : Bool) (o : InterfaceObject) :
    sessionLookup (storeData k' v b o) k = some v ∨
    sessionLookup (storeData k' v b o) k = sessionLookup o k := by
  by_cases hk : k' = k
  · subst hk
    cases hs : o.session with
    | none =>
      right
      unfold sessionLookup
      rw [storeData_session_none _ _ _ _ hs, hs]
    | some s =>
      left
      exact sessionLookup_storeData_self _ _ _ _ _ hs
  · right
    exact sessionLookup_storeData_ne _ _ _ _ _ hk

theorem setGo_sessionLookup_or (cb m : String) (l : List TxObject) :
    ∀ (o : InterfaceObject) (k : String),
      sessionLookup (setCryptoForObjectsGo cb m l o) k = some cb ∨
      sessionLookup (setCryptoForObjectsGo cb m l o) k = sessionLookup o k := by
  induction l with
  | nil => intro o k; right; rfl
  | cons ob rest ih =>
    intro o k
    cases rest with
    | nil =>
      exact sessionLookup_storeData_or _ _ _ _ _
    | cons ob2 rest2 =>
      show sessionLookup (setCryptoForObjectsGo cb m (ob2 :: rest2)
        (storeData (cryptoObjectKey o.settings.username m ob) cb false o)) k = some cb ∨
        sessionLookup (setCryptoForObjectsGo cb m (ob2 :: rest2)
          (storeData (cryptoObjectKey o.settings.username m ob) cb false o)) k
          = sessionLookup o k
      rcases ih (storeData (cryptoObjectKey o.settings.username m ob) cb false o) k with h | h
      · left; exact h
      · rw [h]
        exact sessionLookup_storeData_or _ _ _ _ _

theorem setGo_lookup_mem (cb m : String) (l : List TxObject) :
    ∀ (o : InterfaceObject) (ob : TxObject), ob ∈ l →
      lookupStore (setCryptoForObjectsGo cb m l o).session_store
          (cryptoObjectKey o.settings.username m ob) = some cb ∧
        (∀ s : Session, o.session = some s →
          sessionLookup (setCryptoForObjectsGo cb m l o)
            (cryptoObjectKey o.settings.username m ob) = some cb) := by
  induction l with
  | nil => intro o ob h; exact absurd h (List.not_mem_nil _)
  | cons ob' rest ih =>
    intro o ob hmem
    cases rest with
    | nil =>
      have hob : ob = ob' := by simpa using hmem
      subst hob
      constructor
      · show lookupStore (storeData (cryptoObjectKey o.settings.username m ob) cb
          true o).session_store (cryptoObjectKey o.settings.username m ob) = some cb
        rw [storeData_local]
        exact lookup_insert_self _ _ _
      · intro s hs
        exact sessionLookup_storeData_self _ _ _ _ _ hs
    | cons ob2 rest2 =>
      rcases List.mem_cons.mp hmem with hob | hob
      · subst hob
        constructor
        · show lookupStore (setCryptoForObjectsGo cb m (ob2 :: rest2)
            (storeData (cryptoObjectKey o.settings.username m ob) cb false o)).session_store
            (cryptoObjectKey o.settings.username m ob) = some cb
          rcases setGo_lookup_or cb m (ob2 :: rest2)
            (storeData (cryptoObjectKey o.settings.username m ob) cb false o)
            (cryptoObjectKey o.settings.username m ob) with h | h
          · exact h
          · rw [h, storeData_local]
            exact lookup_insert_self _ _ _
        · intro s hs
          show sessionLookup (setCryptoForObjectsGo cb m (ob2 :: rest2)
            (storeData (cryptoObjectKey o.settings.username m ob) cb false o))
            (cryptoObjectKey o.settings.username m ob) = some cb
          rcases setGo_sessionLookup_or cb m (ob2 :: rest2)
            (storeData (cryptoObjectKey o.settings.username m ob) cb false o)
            (cryptoObjectKey o.settings.username m ob) with h | h
          · exact h
          · rw [h]
            exact sessionLookup_storeData_self _ _ _ _ _ hs
      · have hrec := ih (storeData (cryptoObjectKey o.settings.username m ob') cb false o) ob hob
        rw [storeData_settings] at hrec
        constructor
        · exact hrec.1
        · intro s hs
          exact hrec.2 _ (storeData_session_some _ _ _ _ _ hs)

/-- C4: `_set_crypto_for_objects` over a non-empty batch stores the block
under every object's derived key (locally and in the attached session)
and invokes the session's durable `save` exactly once, on the write for
the last object (earlier writes pass `save_session=False`). -/
theorem c4_batch_single_durable_commit (o : InterfaceObject) (s : Session)
    (crypto_block method_name : String) (interface_objects : List TxObject) (ob : TxObject)
    (hs : o.session = some s) (hsave : s.hasSave = true)
    (hne : interface_objects ≠ []) (hmem : ob ∈ interface_objects) :
    saveCountOf (setCryptoForObjects crypto_block method_name interface_objects o)
      = saveCountOf o + 1 ∧
    lookupStore (setCryptoForObjects crypto_block method_name interface_objects o).session_store
      (cryptoObjectKey o.settings.username method_name ob) = some crypto_block ∧
    sessionLookup (setCryptoForObjects crypto_block method_name interface_objects o)
      (cryptoObjectKey o.settings.username method_name ob) = some crypto_block := by
  unfold setCryptoForObjects
  refine ⟨setGo_saveCount _ _ _ o s hne hs hsave, ?_, ?_⟩
  · exact (setGo_lookup_mem _ _ _ o ob hmem).1
  · exact (setGo_lookup_mem _ _ _ o ob hmem).2 s hs

theorem retrieveData_of_parts (o : InterfaceObject) (s : Session) (k : String)
    (h1 : o.session_store = []) (h2 : o.session = some s) :
    retrieveData o k = lookupStore s.data k := by
  unfold retrieveData
  rw [h1, h2]
  simp [lookupStore, pyTruthy]

theorem retrieveData_freshObject (o' : InterfaceObject) (k : String) :
    retrieveData (freshObject o'.session) k = sessionLookup o' k := by
  unfold retrieveData sessionLookup freshObject
  dsimp only
  cases o'.session with
  | none => simp [lookupStore, pyTruthy]
  | some s => simp [lookupStore, pyTruthy]

theorem configure_fresh_parts (username password url no_time_descr : Option String)
    (api_request_timeout : Option Nat)
    (default_concession_descr remote_ip remote_site accept_language
      ext_start_session_url : Option String) (sess : Option Session) :
    (configure username password url no_time_descr api_request_timeout
      default_concession_descr remote_ip remote_site accept_language
      ext_start_session_url (freshObject sess)).session_store = [] ∧
    (configure username password url no_time_descr api_request_timeout
      default_concession_descr remote_ip remote_site accept_language
      ext_start_session_url (freshObject sess)).session = sess ∧
    (configure username password url no_time_descr api_request_timeout
      default_concession_descr remote_ip remote_site accept_language
      ext_start_session_url (freshObject sess)).remote_calls = 0 ∧
    (configure username password url no_time_descr api_request_timeout
      default_concession_descr remote_ip remote_site accept_language
      ext_start_session_url (freshObject sess)).settings.username
      = resolveConfUsername username remote_ip remote_site (freshObject sess) ∧
    (configure username password url no_time_descr api_request_timeout
      default_concession_descr remote_ip remote_site accept_language
      ext_start_session_url (freshObject sess)).settings.remote_ip = remote_ip ∧
    (configure username password url no_time_descr api_request_timeout
      default_concession_descr remote_ip remote_site accept_language
      ext_start_session_url (freshObject sess)).settings.remote_site = remote_site := by
  have hnc : ¬(configClearCond (freshObject sess).settings
      (resolveConfUsername username remote_ip remote_site (freshObject sess))
      remote_ip remote_site = true) := by
    simp [configClearCond, freshObject, emptySettings, pyTruthy]
  unfold configure
  dsimp only
  rw [if_neg hnc]
  exact ⟨rfl, rfl, rfl, rfl, rfl, rfl⟩

/-- After a successful bootstrap on an instance with no truthy username,
the adopted username is cached (locally and in the attached session)
under the key for the configured (remote_ip, remote_site). -/
theorem startSession_stores_username (r : RemoteResult) (o : InterfaceObject) (s : Session)
    (hs : o.session = some s)
    (hadopt : pyTruthy o.settings.username = false) :
    sessionLookup (startSession (Except.ok r) o).2
      (usernameKey o.settings.remote_ip o.settings.remote_site) = some r.username := by
  unfold startSession
  dsimp only
  have hc : (!(pyTruthy o.settings.username)
      || (o.settings.username != some r.username)) = true := by
    rw [hadopt]
    rfl
  rw [if_pos hc]
  split
  · unfold setCryptoBlock
    rw [sessionLookup_storeData_ne _ _ _ _ _ (cryptoSessionKey_ne_usernameKey _ _ _ _)]
    unfold setCachedRunningUser
    rw [sessionLookup_storeData_ne _ _ _ _ _ (runningUserKey_ne_usernameKey _ _ _)]
    unfold setCachedUsername
    exact sessionLookup_storeData_self _ _ _ _ s hs
  · unfold setCachedRunningUser
    rw [sessionLookup_storeData_ne _ _ _ _ _ (runningUserKey_ne_usernameKey _ _ _)]
    unfold setCachedUsername
    exact sessionLookup_storeData_self _ _ _ _ s hs

theorem clear_sessionLookup_marked (o : InterfaceObject) (k : String)
    (hk : hasMark cryptoMark k = true) :
    sessionLookup (clearCryptoBlocks o) k = none := by
  cases hs : o.session with
  | none =>
    unfold sessionLookup
    rw [clear_session_none o hs]
  | some s =>
    unfold sessionLookup
    rw [clear_session o s hs]
    dsimp only
    by_cases h : s.hasFlush = true
    · rw [if_pos h]
      dsimp only
      unfold flushCryptoBlocks
      exact lookup_filter_crypto_marked _ _ hk
    · rw [if_neg h]
      dsimp only
      exact lookup_filter_crypto_marked _ _ hk

/-- C9: a first instance configured with a (remote_ip, remote_site) pair
and no explicit username, whose shared session holds no cached username
for that pair, bootstraps on `get_username` (exactly one remote call) and
returns the remote-issued username; a second instance built on the
session left behind resolves the same username already at configuration
time, and its `get_username` returns it with no state change and no
remote call. -/
theorem c9_shared_username_cache (S : Session) (ip site : String) (r : RemoteResult)
    (remote2 : Except Unit RemoteResult)
    (hip : ip ≠ "") (hsite : site ≠ "")
    (hmiss : pyTruthy (lookupStore S.data (usernameKey (some ip) (some site))) = false)
    (hru : r.username ≠ "") :
    (getUsername (Except.ok r) (configure none none none none none none (some ip) (some site)
      none none (freshObject (some S)))).1 = Except.ok (some r.username) ∧
    (getUsername (Except.ok r) (configure none none none none none none (some ip) (some site)
      none none (freshObject (some S)))).2.remote_calls = 1 ∧
    (configure none none none none none none (some ip) (some site) none none
      (freshObject (getUsername (Except.ok r) (configure none none none none none none
        (some ip) (some site) none none (freshObject (some S)))).2.session)).settings.username
      = some r.username ∧
    getUsername remote2 (configure none none none none none none (some ip) (some site)
      none none (freshObject (getUsername (Except.ok r) (configure none none none none none
        none (some ip) (some site) none none (freshObject (some S)))).2.session))
      = (Except.ok (some r.username),
        configure none none none none none none (some ip) (some site) none none
          (freshObject (getUsername (Except.ok r) (configure none none none none none none
            (some ip) (some site) none none (freshObject (some S)))).2.session)) := by
  have hipT : pyTruthy (some ip) = true := by simp [pyTruthy, hip]
  have hsiteT : pyTruthy (some site) = true := by simp [pyTruthy, hsite]
  set o1 := configure none none none none none none (some ip) (some site) none none
    (freshObject (some S)) with ho1
  obtain ⟨h1store, h1sess, h1rc, h1user, h1ip, h1site⟩ :=
    configure_fresh_parts none none none none none none (some ip) (some site) none none (some S)
  have hres1 : resolveConfUsername none (some ip) (some site) (freshObject (some S))
      = lookupStore S.data (usernameKey (some ip) (some site)) := by
    unfold resolveConfUsername
    rw [if_pos (by simp [pyTruthy, hip, hsite])]
    unfold getCachedUsername
    exact retrieveData_of_parts _ S _ rfl rfl
  have h1u : o1.settings.username = lookupStore S.data (usernameKey (some ip) (some site)) := by
    rw [ho1, h1user, hres1]
  have hA : (!(pyTruthy o1.settings.username)) = true := by
    rw [h1u, hmiss]
    rfl
  have hcached : getCachedUsername o1.settings.remote_ip o1.settings.remote_site o1
      = lookupStore S.data (usernameKey (some ip) (some site)) := by
    rw [ho1, h1ip, h1site]
    unfold getCachedUsername
    rw [← ho1]
    exact retrieveData_of_parts o1 S _ (by rw [ho1]; exact h1store) (by rw [ho1]; exact h1sess)
  have hB : (!(pyTruthy (getCachedUsername o1.settings.remote_ip
      o1.settings.remote_site o1))) = true := by
    rw [hcached, hmiss]
    rfl
  have hss : startSession (Except.ok r) o1
      = (Except.ok r.crypto_block, (startSession (Except.ok r) o1).2) := by
    rw [← startSession_ok_fst r o1]
  have hgu : getUsername (Except.ok r) o1
      = (Except.ok ((startSession (Except.ok r) o1).2.settings.username),
        (startSession (Except.ok r) o1).2) := by
    unfold getUsername
    rw [if_pos hA]
    dsimp only
    rw [if_pos hB, hss]
  have h2sl : sessionLookup (startSession (Except.ok r) o1).2
      (usernameKey (some ip) (some site)) = some r.username := by
    have hst := startSession_stores_username r o1 S
      (by rw [ho1]; exact h1sess) (by rw [h1u]; exact hmiss)
    rw [ho1, h1ip, h1site] at hst
    rw [ho1]
    exact hst
  have hres2 : resolveConfUsername none (some ip) (some site)
      (freshObject (startSession (Except.ok r) o1).2.session) = some r.username := by
    unfold resolveConfUsername
    rw [if_pos (by simp [pyTruthy, hip, hsite])]
    unfold getCachedUsername
    rw [retrieveData_freshObject (startSession (Except.ok r) o1).2]
    exact h2sl
  obtain ⟨h2store, h2sess, h2rc, h2user, h2ip, h2site⟩ :=
    configure_fresh_parts none none none none none none (some ip) (some site) none none
      (startSession (Except.ok r) o1).2.session
  have hc3 : (configure none none none none none none (some ip) (some site) none none
      (freshObject (getUsername (Except.ok r) o1).2.session)).settings.username
      = some r.username := by
    rw [hgu]
    dsimp only
    rw [h2user, hres2]
  refine ⟨?_, ?_, hc3, ?_⟩
  · rw [hgu]
    dsimp only
    rw [startSession_ok_username]
  · rw [hgu]
    dsimp only
    rw [startSession_ok_remote_calls, ho1, h1rc]
  · rw [hgu]
    dsimp only
    have hc3' : (configure none none none none none none (some ip) (some site) none none
        (freshObject (startSession (Except.ok r) o1).2.session)).settings.username
        = some r.username := by
      rw [h2user, hres2]
    unfold getUsername
    rw [if_neg (by rw [hc3']; simp [pyTruthy, hru]), hc3']

/-- An empty shared-session fixture for the C9 witness. -/
def wEmptySession : Session :=
  { data := [], hasSave := false, hasFlush := false, saveCount := 0, flushCount := 0 }

/-- A concrete remote bootstrap result for the C9 witness. -/
def wGuestRemote : RemoteResult :=
  { crypto_block := some "cb", username := "guest", running_user := "ru" }

/-- C9 witness. -/
theorem c9_witness :
    (("ip" : String) ≠ "") ∧
    (("site" : String) ≠ "") ∧
    pyTruthy (lookupStore wEmptySession.data (usernameKey (some "ip") (some "site"))) = false ∧
    (("guest" : String) ≠ "") ∧
    ((getUsername (Except.ok wGuestRemote)
      (configure none none none none none none (some "ip") (some "site") none none
        (freshObject (some wEmptySession)))).1 = Except.ok (some "guest") ∧
      (getUsername (Except.ok wGuestRemote)
        (configure none none none none none none (some "ip") (some "site") none none
          (freshObject (some wEmptySession)))).2.remote_calls = 1 ∧
      (configure none none none none none none (some "ip") (some "site") none none
        (freshObject (getUsername (Except.ok wGuestRemote)
          (configure none none none none none none (some "ip") (some "site") none none
            (freshObject (some wEmptySession)))).2.session)).settings.username
        = some "guest" ∧
      getUsername (Except.error ()) (configure none none none none none none (some "ip")
        (some "site") none none (freshObject (getUsername (Except.ok wGuestRemote)
          (configure none none none none none none (some "ip") (some "site") none none
            (freshObject (some wEmptySession)))).2.session))
        = (Except.ok (some "guest"),
          configure none none none none none none (some "ip") (some "site") none none
            (freshObject (getUsername (Except.ok wGuestRemote)
              (configure none none none none none none (some "ip") (some "site") none none
                (freshObject (some wEmptySession)))).2.session))) :=
  ⟨by decide, by decide, by decide, by decide,
    c9_shared_username_cache wEmptySession "ip" "site" wGuestRemote (Except.error ())
      (by decide) (by decide) (by decide) (by decide)⟩

/-- C1 (amended): when the resolved username, the remote_ip or the
remote_site supplied to `_configure` differs from a previously configured
truthy value, every crypto-marked entry is purged from the local store
and from the attached session before the new settings are adopted; a
subsequent `get_crypto_block` (with the new username resolved) for any
method other than the bootstrap method `start_session` returns absent.
For `start_session` itself a fresh bootstrap block is returned instead
(see the counterexample). -/
theorem c1_identity_change_purges_crypto_blocks
    (o : InterfaceObject)
    (username password url no_time_descr : Option String)
    (api_request_timeout : Option Nat)
    (default_concession_descr remote_ip remote_site accept_language
      ext_start_session_url : Option String)
    (k m : String) (remote : Except Unit RemoteResult)
    (hcond : configClearCond o.settings
      (resolveConfUsername username remote_ip remote_site o) remote_ip remote_site = true)
    (hk : hasMark cryptoMark k = true)
    (hm : m ≠ "start_session")
    (hu : pyTruthy (configure username password url no_time_descr api_request_timeout
      default_concession_descr remote_ip remote_site accept_language
      ext_start_session_url o).settings.username = true) :
    lookupStore (configure username password url no_time_descr api_request_timeout
      default_concession_descr remote_ip remote_site accept_language
      ext_start_session_url o).session_store k = none ∧
    sessionLookup (configure username password url no_time_descr api_request_timeout
      default_concession_descr remote_ip remote_site accept_language
      ext_start_session_url o) k = none ∧
    (getCryptoBlock m true remote (configure username password url no_time_descr
      api_request_timeout default_concession_descr remote_ip remote_site accept_language
      ext_start_session_url o)).1 = Except.ok none := by
  have hstore : (configure username password url no_time_descr api_request_timeout
      default_concession_descr remote_ip remote_site accept_language
      ext_start_session_url o).session_store = (clearCryptoBlocks o).session_store := by
    unfold configure
    dsimp only
    rw [if_pos hcond]
  have hsess : (configure username password url no_time_descr api_request_timeout
      default_concession_descr remote_ip remote_site accept_language
      ext_start_session_url o).session = (clearCryptoBlocks o).session := by
    unfold configure
    dsimp only
    rw [if_pos hcond]
  have hsl : ∀ k' : String, sessionLookup (configure username password url no_time_descr
      api_request_timeout default_concession_descr remote_ip remote_site accept_language
      ext_start_session_url o) k' = sessionLookup (clearCryptoBlocks o) k' := by
    intro k'
    unfold sessionLookup
    rw [hsess]
  refine ⟨?_, ?_, ?_⟩
  · rw [hstore, clear_local]
    exact lookup_filter_crypto_marked _ _ hk
  · rw [hsl k]
    exact clear_sessionLookup_marked o k hk
  · unfold getCryptoBlock
    rw [if_pos (by simp)]
    unfold ensureUsername
    rw [if_pos hu]
    dsimp only
    have hret : retrieveData (configure username password url no_time_descr
        api_request_timeout default_concession_descr remote_ip remote_site accept_language
        ext_start_session_url o)
        (cryptoSessionKey (configure username password url no_time_descr
          api_request_timeout default_concession_descr remote_ip remote_site accept_language
          ext_start_session_url o).settings.username m) = none := by
      apply retrieveData_eq_none
      · rw [hstore, clear_local]
        exact lookup_filter_crypto_marked _ _ (hasMark_cryptoSessionKey _ _)
      · rw [hsl]
        exact clear_sessionLookup_marked o _ (hasMark_cryptoSessionKey _ _)
    rw [hret]
    rw [if_neg (by simp [pyTruthy, hm])]

/-- C1 witness. -/
theorem c1_witness :
    configClearCond wAliceObj.settings
      (resolveConfUsername (some "bob") (some "ip") (some "site") wAliceObj)
      (some "ip") (some "site") = true ∧
    hasMark cryptoMark "CRYPTO_BLOCK_alice_start_session" = true ∧
    (("reserve" : String) ≠ "start_session") ∧
    pyTruthy (configure (some "bob") none none none none none (some "ip") (some "site")
      none none wAliceObj).settings.username = true ∧
    (lookupStore (configure (some "bob") none none none none none (some "ip") (some "site")
        none none wAliceObj).session_store "CRYPTO_BLOCK_alice_start_session" = none ∧
      sessionLookup (configure (some "bob") none none none none none (some "ip") (some "site")
        none none wAliceObj) "CRYPTO_BLOCK_alice_start_session" = none ∧
      (getCryptoBlock "reserve" true (Except.error ())
        (configure (some "bob") none none none none none (some "ip") (some "site")
          none none wAliceObj)).1 = Except.ok none) :=
  ⟨by decide, by decide, by decide, by decide,
    c1_identity_change_purges_crypto_blocks wAliceObj
      (some "bob") none none none none none (some "ip") (some "site") none none
      "CRYPTO_BLOCK_alice_start_session" "reserve" (Except.error ())
      (by decide) (by decide) (by decide) (by decide)⟩

/-- C3 (amended): with a password configured,
`get_crypto_block(method, password_required=False)` returns `None`
without touching the state (so no remote call and no cache lookup); with
no password and no resolved username the call proceeds and bootstraps
exactly once, provided the bootstrap yields a crypto block (see the
counterexample for the double-bootstrap case). -/
theorem c3_password_gate_and_single_bootstrap
    (o₁ o₂ : InterfaceObject) (m₁ m₂ : String) (remote : Except Unit RemoteResult)
    (r : RemoteResult)
    (h1 : passwordIsSet o₁ = true)
    (h2 : passwordIsSet o₂ = false)
    (h3 : pyTruthy o₂.settings.username = false)
    (h4 : pyTruthy r.crypto_block = true) :
    getCryptoBlock m₁ false remote o₁ = (Except.ok none, o₁) ∧
    (getCryptoBlock m₂ false (Except.ok r) o₂).2.remote_calls = o₂.remote_calls + 1 := by
  constructor
  · unfold getCryptoBlock
    rw [if_neg (by simp [h1])]
  · unfold getCryptoBlock
    rw [if_pos (by simp [h2])]
    unfold ensureUsername
    rw [if_neg (by rw [h3]; decide)]
    have hss : startSession (Except.ok r) o₂
        = (Except.ok r.crypto_block, (startSession (Except.ok r) o₂).2) := by
      rw [← startSession_ok_fst r o₂]
    rw [hss]
    dsimp only
    split
    · exact startSession_ok_remote_calls r o₂
    · exact startSession_ok_remote_calls r o₂

/-- A concrete fixture with a configured password for the C3 witness. -/
def wPwObj : InterfaceObject :=
  { settings := { emptySettings with password := some "pw" }, session_store := [],
    session := none, remote_calls := 0 }

/-- C3 witness. -/
theorem c3_witness :
    passwordIsSet wPwObj = true ∧
    passwordIsSet (freshObject none) = false ∧
    pyTruthy (freshObject none).settings.username = false ∧
    pyTruthy (some "cb") = true ∧
    (getCryptoBlock "reserve" false (Except.error ()) wPwObj = (Except.ok none, wPwObj) ∧
      (getCryptoBlock "other" false
        (Except.ok { crypto_block := some "cb", username := "u", running_user := "ru" })
        (freshObject none)).2.remote_calls = (freshObject none).remote_calls + 1) :=
  ⟨by decide, by decide, by decide, by decide,
    c3_password_gate_and_single_bootstrap wPwObj (freshObject none) "reserve" "other"
      (Except.error ())
      { crypto_block := some "cb", username := "u", running_user := "ru" }
      (by decide) (by decide) (by decide) (by decide)⟩

/-- A concrete fixture for the C4 witness: resolved username, attached
session exposing `save`. -/
def wBatchObj : InterfaceObject :=
  { settings := { emptySettings with username := some "u" }, session_store := [],
    session := some wSession, remote_calls := 0 }

/-- C4 witness. -/
theorem c4_witness :
    wBatchObj.session = some wSession ∧
    wSession.hasSave = true ∧
    ([{ cache_key := "A" }, { cache_key := "B" }] : List TxObject) ≠ [] ∧
    ({ cache_key := "A" } : TxObject) ∈
      ([{ cache_key := "A" }, { cache_key := "B" }] : List TxObject) ∧
    (saveCountOf (setCryptoForObjects "blk" "reserve"
        [{ cache_key := "A" }, { cache_key := "B" }] wBatchObj)
        = saveCountOf wBatchObj + 1 ∧
      lookupStore (setCryptoForObjects "blk" "reserve"
        [{ cache_key := "A" }, { cache_key := "B" }] wBatchObj).session_store
        (cryptoObjectKey wBatchObj.settings.username "reserve" { cache_key := "A" })
        = some "blk" ∧
      sessionLookup (setCryptoForObjects "blk" "reserve"
        [{ cache_key := "A" }, { cache_key := "B" }] wBatchObj)
        (cryptoObjectKey wBatchObj.settings.username "reserve" { cache_key := "A" })
        = some "blk") :=
  ⟨by decide, by decide, by decide, by decide,
    c4_batch_single_durable_commit wBatchObj wSession "blk" "reserve"
      [{ cache_key := "A" }, { cache_key := "B" }] { cache_key := "A" }
      (by decide) (by decide) (by decide) (by decide)⟩

end PTS
